import Mathlib

/-!
Verification of the Fileglancer demo service (demo_service.py) against its
natural-language specification.  The Python source is shallowly embedded:
pure fragments become Lean functions, the filesystem and socket layers are
abstracted into explicit state records, and timestamps are epoch seconds
(Nat).  All definitions are executable.
-/

namespace DemoService

/-! ## String-level helpers embedding the Python string operations used by
the service (str.split, str.startswith, str.endswith, str.rstrip,
urllib.parse.unquote, posixpath.normpath, os.path.join). -/

/-- Embedding of Python str.split(sep) at the character-list level for a
one-character separator.  Python semantics: splitting the empty string gives
one empty field; adjacent separators give empty fields. -/
def splitSlash : List Char → List (List Char)
  | [] => [[]]
  | c :: rest =>
    if c = '/' then [] :: splitSlash rest
    else
      match splitSlash rest with
      | [] => [[c]]
      | p :: ps => (c :: p) :: ps

/-- Python path.split("/") lifted to String. -/
def pySplitSlash (s : String) : List String :=
  (splitSlash s.data).map (fun l => ⟨l⟩)

/-- Embedding of Python s.startswith("/"). -/
def startsWithSlash (s : String) : Bool :=
  match s.data with
  | [] => false
  | c :: _ => c = '/'

/-- Embedding of Python s.startswith("//"). -/
def startsWithSlash2 (s : String) : Bool :=
  match s.data with
  | '/' :: '/' :: _ => true
  | _ => false

/-- Embedding of Python s.startswith("///"). -/
def startsWithSlash3 (s : String) : Bool :=
  match s.data with
  | '/' :: '/' :: '/' :: _ => true
  | _ => false

/-- Embedding of Python s.endswith("/"). -/
def endsWithSlash (s : String) : Bool :=
  match s.data.getLast? with
  | some c => c = '/'
  | none => false

/-- Embedding of Python str.rstrip() restricted to the ASCII whitespace the
request paths can contain. -/
def pyRstrip (s : String) : String :=
  ⟨(s.data.reverse.dropWhile Char.isWhitespace).reverse⟩

/-- Everything before the first occurrence of c, i.e. Python
s.split(c, 1)[0]. -/
def cutAt (c : Char) (s : String) : String :=
  ⟨s.data.takeWhile (fun a => a != c)⟩

/-- Value of an ASCII hex digit, as used by percent-decoding. -/
def hexDigit (c : Char) : Option Nat :=
  if '0' ≤ c ∧ c ≤ '9' then some (c.toNat - 48)
  else if 'a' ≤ c ∧ c ≤ 'f' then some (c.toNat - 87)
  else if 'A' ≤ c ∧ c ≤ 'F' then some (c.toNat - 55)
  else none

/-- Character-level embedding of urllib.parse.unquote: each %XX hex escape
is decoded to the character with that code; malformed escapes are left as
literal text.  Multi-byte UTF-8 recombination is not modelled (the ASCII
escapes relevant to path traversal decode identically), and none of the
theorems below depend on the decoded values. -/
def unquoteChars : List Char → List Char
  | [] => []
  | '%' :: c1 :: c2 :: rest =>
    match hexDigit c1, hexDigit c2 with
    | some h, some l => Char.ofNat (16 * h + l) :: unquoteChars rest
    | _, _ => '%' :: unquoteChars (c1 :: c2 :: rest)
  | c :: rest => c :: unquoteChars rest

/-- urllib.parse.unquote lifted to String. -/
def unquote (s : String) : String := ⟨unquoteChars s.data⟩

/-- Embedding of posixpath.join for two arguments (the only arity the
service uses): an absolute second component replaces the first, otherwise
the components are joined with a single separator. -/
def ppjoin (a b : String) : String :=
  if startsWithSlash b then b
  else if a = "" ∨ endsWithSlash a then a ++ b
  else a ++ "/" ++ b

/-- Embedding of posixpath.normpath (CPython): collapse empty and "."
components, resolve ".." against preceding components, and preserve the
count of leading slashes (two slashes stay two, any other count becomes
one). -/
def posix_normpath (path : String) : String :=
  if path = "" then "."
  else
    let initial_slashes : Nat :=
      if startsWithSlash path then
        if startsWithSlash2 path ∧ ¬ startsWithSlash3 path then 2 else 1
      else 0
    let comps := pySplitSlash path
    let new_comps := comps.foldl (fun acc comp =>
      if comp = "" ∨ comp = "." then acc
      else if comp ≠ ".." ∨ (initial_slashes = 0 ∧ acc = []) ∨ acc.getLast? = some ".." then
        acc ++ [comp]
      else if acc ≠ [] then acc.dropLast
      else acc) []
    let joined := String.intercalate "/" new_comps
    let full := String.mk (List.replicate initial_slashes '/') ++ joined
    if full = "" then "." else full

/-! ## DemoHandler.translate_path (demo_service.py lines 30-46) -/

/-- Loop body of the serve-dir branch of DemoHandler.translate_path
(lines 39-44): empty, ".", and ".." components are skipped, every other
component is appended with os.path.join. -/
def transStep (result part : String) : String :=
  if part = "" ∨ part = "." then result
  else if part = ".." then result
  else ppjoin result part

/-- Serve-dir branch of DemoHandler.translate_path (lines 31-45): decode,
normalize, split on "/", then fold transStep starting from the configured
directory. -/
def translate_path_serve (serve_dir path : String) : String :=
  let p := unquote (posix_normpath path)
  let parts := pySplitSlash p
  parts.foldl transStep serve_dir

/-- Embedding of SimpleHTTPRequestHandler.translate_path (CPython
http.server), the inherited fallback used when no serve_dir is configured:
strip query and fragment, remember a trailing slash, decode, normalize,
then join the non-trivial components onto the handler directory (which the
library defaults to the current working directory). -/
def super_translate_path (directory reqPath : String) : String :=
  let p0 := cutAt '?' reqPath
  let p1 := cutAt '#' p0
  let trailing_slash := endsWithSlash (pyRstrip p1)
  let p2 := posix_normpath (unquote p1)
  let words := (pySplitSlash p2).filter (fun w => w != "")
  let base := words.foldl (fun path word =>
    if ('/' ∈ word.data) ∨ word = "." ∨ word = ".." then path
    else ppjoin path word) directory
  if trailing_slash then base ++ "/" else base

/-- DemoHandler.translate_path (lines 30-46).  The serve_dir field mirrors
the Python attribute: the factory in main passes args.serve_dir or None,
and the method tests its truthiness, so an absent or empty value selects
the inherited resolver. -/
def DemoHandler_translate_path (serve_dir : Option String) (directory path : String) : String :=
  match serve_dir with
  | some d => if d ≠ "" then translate_path_serve d path else super_translate_path directory path
  | none => super_translate_path directory path

/-- Containment relation: p is the root itself, or is reached from the root
by joining a sequence of clean components (nonempty, not ".", not "..",
and containing no separator) — the formal meaning of "the root or a
descendant of the root". -/
inductive Descends (root : String) : String → Prop
  | refl : Descends root root
  | step (p q : String) : Descends root p → q ≠ "" → q ≠ "." → q ≠ ".." →
      '/' ∉ q.data → Descends root (ppjoin p q)

/-! ## find_free_port (demo_service.py lines 103-113) and port selection
(line 156).  The socket layer is abstracted into a predicate free : Nat →
Bool saying whether a transient test bind on a port would succeed; the
Python OSError raised when every bind fails becomes the error case of
Except, carrying the exact message of line 113. -/

/-- Body of the for-loop of find_free_port: try each candidate in order,
return the first that binds, raise with msg when the list is exhausted. -/
def portScan (free : Nat → Bool) (msg : String) : List Nat → Except String Nat
  | [] => Except.error msg
  | p :: rest => if free p then Except.ok p else portScan free msg rest

/-- find_free_port (lines 103-113): scan range(start, stop) in ascending
order with a transient bind-and-release probe.  The defaults 8080 and 9000
are those of the source. -/
def find_free_port (free : Nat → Bool) (start : Nat := 8080) (stop : Nat := 9000) :
    Except String Nat :=
  portScan free ("No free port found in range " ++ toString start ++ "-" ++ toString stop)
    (List.range' start (stop - start))

/-- Port selection of main (line 156 with the argparse default 0 of line
130): a strictly positive --port value is used directly, anything else
(zero or negative, since argparse accepts any int) enters auto mode with
the default range. -/
def choosePort (argPort : Int) (free : Nat → Bool) : Except String Nat :=
  if argPort > 0 then Except.ok argPort.toNat else find_free_port free

/-! ## The HTTP surface: DemoHandler.do_GET, _serve_status_page (lines
48-97) and the inherited static file serving.  Responses are modelled as a
record of status code, Content-Type header, Content-Length header and body
text; the body bytes actually sent are the UTF-8 encoding of the body
text, whose length is byteLen. -/

structure HttpResponse where
  status : Nat
  contentType : Option String
  contentLength : Option Nat
  body : Option String
deriving DecidableEq

/-- Number of bytes of the UTF-8 encoding of s, i.e. Python
len(s.encode()). -/
def byteLen (s : String) : Nat :=
  s.data.foldl (fun n c => n + c.utf8Size) 0

/-- Handler state set by DemoHandler.__init__ (lines 24-28): the serve
directory and message captured by the factory closure in main, and the
datetime.now() taken when __init__ runs. -/
structure DemoHandlerState where
  serveDir : Option String
  message : String
  startTime : Nat

/-- DemoHandler.__init__ (lines 24-28) evaluated at wall-clock time now. -/
def DemoHandler_init (serveDir : Option String) (message : String) (now : Nat) :
    DemoHandlerState :=
  ⟨serveDir, message, now⟩

/-- Two-digit zero-padded decimal, as produced by strftime fields. -/
def pad2 (n : Nat) : String :=
  if n < 10 then "0" ++ toString n else toString n

/-- Four-digit zero-padded decimal for the year field. -/
def pad4 (n : Nat) : String :=
  if n < 10 then "000" ++ toString n
  else if n < 100 then "00" ++ toString n
  else if n < 1000 then "0" ++ toString n
  else toString n

/-- Gregorian date from a count of days since 1970-01-01 (standard civil
calendar conversion). -/
def civilFromDays (days : Nat) : Nat × Nat × Nat :=
  let z := days + 719468
  let era := z / 146097
  let doe := z % 146097
  let yoe := (doe - doe / 1460 + doe / 36524 - doe / 146096) / 365
  let y := yoe + era * 400
  let doy := doe - (365 * yoe + yoe / 4 - yoe / 100)
  let mp := (5 * doy + 2) / 153
  let d := doy - (153 * mp + 2) / 5 + 1
  let m := if mp < 10 then mp + 3 else mp - 9
  (if m ≤ 2 then y + 1 else y, m, d)

/-- Embedding of datetime.strftime of the format used on the status page,
over epoch seconds. -/
def strftimeYmdHMS (t : Nat) : String :=
  let days := t / 86400
  let secs := t % 86400
  let ymd := civilFromDays days
  pad4 ymd.1 ++ "-" ++ pad2 ymd.2.1 ++ "-" ++ pad2 ymd.2.2 ++ " " ++
    pad2 (secs / 3600) ++ ":" ++ pad2 ((secs % 3600) / 60) ++ ":" ++ pad2 (secs % 60)

/-- Data interpolated into the status page (lines 60-62 and 81-82):
formatted handler start time, and the uptime decomposition
divmod(int(uptime), 3600) then divmod(remainder, 60). -/
structure StatusView where
  started : String
  hours : Nat
  minutes : Nat
  seconds : Nat
deriving DecidableEq

/-- Uptime and start-time computation of _serve_status_page relative to
the start time stored on the handler. -/
def statusView (h : DemoHandlerState) (now : Nat) : StatusView :=
  let uptime := now - h.startTime
  ⟨strftimeYmdHMS h.startTime, uptime / 3600, (uptime % 3600) / 60, (uptime % 3600) % 60⟩

/-- The rendered HTML of _serve_status_page (lines 64-92), with the
f-string fields substituted.  Literal braces from the doubled braces of
the source are written as hex escapes. -/
def status_html (message started : String) (hours minutes seconds : Nat)
    (hostname : String) (pid : Nat) : String :=
  "<!DOCTYPE html>\n<html>\n<head>\n    <title>Demo Service</title>\n    <style>\n" ++
  "        body \x7b font-family: system-ui, sans-serif; max-width: 600px; margin: 40px auto; padding: 0 20px; \x7d\n" ++
  "        .status \x7b padding: 12px 16px; border-radius: 8px; background: #e8f5e9; border: 1px solid #a5d6a7; margin: 16px 0; \x7d\n" ++
  "        .dot \x7b display: inline-block; width: 10px; height: 10px; border-radius: 50%; background: #4caf50; margin-right: 8px; \x7d\n" ++
  "        code \x7b background: #f5f5f5; padding: 2px 6px; border-radius: 4px; font-size: 14px; \x7d\n" ++
  "        h1 \x7b color: #333; \x7d\n" ++
  "        p \x7b color: #666; line-height: 1.6; \x7d\n" ++
  "    </style>\n</head>\n<body>\n    <h1>Demo Service</h1>\n" ++
  "    <div class=\"status\"><span class=\"dot\"></span> Running</div>\n" ++
  "    <p><strong>Message:</strong> " ++ message ++ "</p>\n" ++
  "    <p><strong>Started:</strong> " ++ started ++ "</p>\n" ++
  "    <p><strong>Uptime:</strong> " ++ toString hours ++ "h " ++ toString minutes ++ "m " ++
    toString seconds ++ "s</p>\n" ++
  "    <p><strong>Hostname:</strong> " ++ hostname ++ "</p>\n" ++
  "    <p><strong>PID:</strong> " ++ toString pid ++ "</p>\n" ++
  "    <p>This is a demo service for testing Fileglancer\x27s service-type app support.</p>\n" ++
  "    <p>Endpoints:</p>\n    <ul>\n" ++
  "        <li><code>/</code> - This status page</li>\n" ++
  "        <li><code>/health</code> - JSON health check</li>\n" ++
  "    </ul>\n</body>\n</html>"

/-- _serve_status_page (lines 59-97).  Note line 95 of the source sets
Content-Length to str(len(html)) — the character count of the Python str —
while line 97 sends html.encode(), whose byte count is byteLen html. -/
def serve_status_page (h : DemoHandlerState) (now : Nat) (hostname : String) (pid : Nat) :
    HttpResponse :=
  let v := statusView h now
  let html := status_html h.message v.started v.hours v.minutes v.seconds hostname pid
  ⟨200, some "text/html", some html.length, some html⟩

/-- Verbatim body of the health endpoint (line 55). -/
def healthBody : String := "\x7b\"status\": \"ok\"\x7d"

/-- Filesystem as seen by the static file serving: which paths are regular
files and which are directories. -/
structure FSModel where
  isFile : String → Bool
  isDir : String → Bool

/-- Status-code-level embedding of SimpleHTTPRequestHandler.send_head
(CPython http.server), reached from DemoHandler.do_GET through
super().do_GET() on line 57 and calling back into the overridden
translate_path: a directory without trailing slash in the request
redirects, a directory otherwise yields 200 (index file or generated
listing), an existing regular file yields 200, anything else 404. -/
def send_head (serveDir : Option String) (directory : String) (fs : FSModel)
    (reqPath : String) : HttpResponse :=
  let path := DemoHandler_translate_path serveDir directory reqPath
  if fs.isDir path then
    if ¬ endsWithSlash (cutAt '#' (cutAt '?' reqPath)) then ⟨301, none, none, none⟩
    else ⟨200, some "text/html", none, none⟩
  else if endsWithSlash path then ⟨404, none, none, none⟩
  else if fs.isFile path then ⟨200, none, none, none⟩
  else ⟨404, none, none, none⟩

/-- DemoHandler.do_GET (lines 48-57): "/" or "" serves the status page,
"/health" the fixed JSON body with no explicit Content-Length, and every
other path falls through to the inherited static file machinery. -/
def do_GET (h : DemoHandlerState) (directory : String) (fs : FSModel) (now : Nat)
    (hostname : String) (pid : Nat) (reqPath : String) : HttpResponse :=
  if reqPath = "/" ∨ reqPath = "" then serve_status_page h now hostname pid
  else if reqPath = "/health" then ⟨200, some "application/json", none, some healthBody⟩
  else send_head h.serveDir directory fs reqPath

/-- One status-page view per incoming connection.  HTTPServer
(socketserver.BaseServer.finish_request) instantiates the handler class
anew for every accepted connection, so the datetime.now() of
DemoHandler.__init__ (line 27) runs at each request time; processStart is
the wall-clock time at which main began serving and is visible to no
handler. -/
def serveConnections (serveDir : Option String) (message : String) (processStart : Nat)
    (reqTimes : List Nat) : List StatusView :=
  reqTimes.map (fun t => statusView (DemoHandler_init serveDir message t) t)

/-- Filesystem with a single regular file at /cwd/x, the working-directory
file used to exhibit the static fallback. -/
def cwdFS : FSModel := ⟨fun p => p == "/cwd/x", fun _ => false⟩

/-- Filesystem with no entries at all. -/
def emptyFS : FSModel := ⟨fun _ => false, fun _ => false⟩

/-! ## Discovery file publication: write_service_url (lines 116-124) and
the surrounding startup steps of main (lines 150-154, 174-186).  The
filesystem is abstracted to whether the open-and-write succeeds and what
the post-write existence check reports; an open or write failure is an
OSError propagating out of write_service_url, which main does not catch. -/

structure DiscoveryFS where
  openWriteOk : Bool
  existsAfterWrite : Bool

/-- write_service_url (lines 116-124): open the path for writing and write
the URL; on success, re-check existence and log either the verification
line or the ERROR diagnostic.  Returns the log lines, or the uncaught
OSError. -/
def write_service_url (fs : DiscoveryFS) (url path : String) : Except String (List String) :=
  if fs.openWriteOk then
    Except.ok (("Writing service URL to: " ++ path) ::
      (if fs.existsAfterWrite then
        ["Verified: " ++ path ++ " exists (" ++ toString (byteLen url) ++ " bytes)"]
       else ["ERROR: " ++ path ++ " does not exist after write!"]))
  else Except.error "OSError"

/-- What startup reaches after the publication step: the discovery file
written (path and content), the log lines, and whether the signal handlers
of lines 183-184 were installed and serve_forever of line 189 entered. -/
structure MainOutcome where
  wrote : Option (String × String)
  logs : List String
  handlersInstalled : Bool
  serving : Bool
deriving DecidableEq

/-- The discovery-publication slice of main: read SERVICE_URL_PATH with
default "" (line 150), warn and skip publication when it is falsy (lines
151-154, 175), otherwise call write_service_url (line 176); an exception
from it propagates, aborting startup before the signal handlers and the
serve loop.  On the non-raising paths main installs the handlers and
serves. -/
def discoveryPhase (fs : DiscoveryFS) (env : Option String) (url : String) :
    Except String MainOutcome :=
  let path := Option.getD env ""
  if path ≠ "" then
    match write_service_url fs url path with
    | Except.error e => Except.error e
    | Except.ok ls =>
      Except.ok ⟨some (path, url), ("SERVICE_URL_PATH: " ++ path) :: ls, true, true⟩
  else
    Except.ok ⟨none, ["WARNING: SERVICE_URL_PATH not set, service URL will not be written"],
      true, true⟩

/-- Discovery filesystem on which the open itself fails. -/
def badFS : DiscoveryFS := ⟨false, false⟩

/-- Discovery filesystem on which the write and the verification succeed. -/
def goodFS : DiscoveryFS := ⟨true, true⟩

/-- Discovery filesystem on which the write succeeds but the post-write
existence check reports the file missing. -/
def failVerifyFS : DiscoveryFS := ⟨true, false⟩

/-- Whether a startup result reached the serving state rather than an
uncaught exception. -/
def isOkB : Except String MainOutcome → Bool
  | Except.ok _ => true
  | Except.error _ => false

/-! ## Shutdown sequence: the finally block of main (lines 192-198). -/

inductive ShutEvent where
  | closeListener : ShutEvent
  | removeFile : ShutEvent
  | logEvent : String → ShutEvent
deriving DecidableEq

/-- Listener and discovery-file state visible to an external observer. -/
structure ShutState where
  listenerOpen : Bool
  fileExists : Bool
deriving DecidableEq

/-- Event sequence of the finally block (lines 192-198):
server.server_close() first, then — when a discovery path is configured
and the file still exists — os.remove plus its log line, then the final
log line. -/
def shutdownEvents (service_url_path : String) (fileStillThere : Bool) : List ShutEvent :=
  [ShutEvent.closeListener] ++
  (if service_url_path ≠ "" ∧ fileStillThere = true then
    [ShutEvent.removeFile, ShutEvent.logEvent ("Cleaned up " ++ service_url_path)]
   else []) ++
  [ShutEvent.logEvent "Service stopped."]

/-- Effect of one shutdown event on the observable state. -/
def shutStep (s : ShutState) : ShutEvent → ShutState
  | ShutEvent.closeListener => ⟨false, s.fileExists⟩
  | ShutEvent.removeFile => ⟨s.listenerOpen, false⟩
  | ShutEvent.logEvent _ => s

/-- All observable instants of the shutdown sequence, the initial state
included. -/
def shutStates (init : ShutState) (evs : List ShutEvent) : List ShutState :=
  evs.scanl shutStep init

/-- The condition claimed to never occur: the discovery file exists while
the listener is closed. -/
def fileWhileClosed (s : ShutState) : Bool := s.fileExists && !s.listenerOpen

end DemoService

namespace DemoService

/-! ## Lemmas about the split and the containment fold -/

theorem splitSlash_ne_nil (cs : List Char) : splitSlash cs ≠ [] := by
  induction cs with
  | nil => simp [splitSlash]
  | cons c rest ih =>
    simp only [splitSlash]
    split
    · simp
    · cases h : splitSlash rest with
      | nil => simp
      | cons p ps => simp

theorem splitSlash_no_slash (cs : List Char) :
    ∀ l ∈ splitSlash cs, '/' ∉ l := by
  induction cs with
  | nil =>
    intro l hl
    simp [splitSlash] at hl
    simp [hl]
  | cons c rest ih =>
    intro l hl
    simp only [splitSlash] at hl
    by_cases hc : c = '/'
    · rw [if_pos hc] at hl
      rcases List.mem_cons.mp hl with h | h
      · simp [h]
      · exact ih l h
    · rw [if_neg hc] at hl
      cases h : splitSlash rest with
      | nil => exact absurd h (splitSlash_ne_nil rest)
      | cons p ps =>
        rw [h] at hl
        rcases List.mem_cons.mp hl with h2 | h2
        · subst h2
          intro hmem
          rcases List.mem_cons.mp hmem with h3 | h3
          · exact hc h3.symm
          · exact ih p (h ▸ List.mem_cons_self p ps) h3
        · exact ih l (h ▸ List.mem_cons_of_mem p h2)

theorem pySplitSlash_no_slash (s : String) :
    ∀ part ∈ pySplitSlash s, '/' ∉ part.data := by
  intro part hp
  rcases List.mem_map.mp hp with ⟨l, hl, he⟩
  subst he
  exact splitSlash_no_slash s.data l hl

theorem descends_foldl (root : String) (parts : List String)
    (hp : ∀ q ∈ parts, '/' ∉ q.data) :
    ∀ acc : String, Descends root acc → Descends root (parts.foldl transStep acc) := by
  induction parts with
  | nil => intro acc ha; simpa using ha
  | cons part rest ih =>
    intro acc ha
    have hrest : ∀ q ∈ rest, '/' ∉ q.data := fun q hq => hp q (List.mem_cons_of_mem part hq)
    have hpart : '/' ∉ part.data := hp part (List.mem_cons_self part rest)
    simp only [List.foldl_cons]
    apply ih hrest
    unfold transStep
    by_cases h1 : part = "" ∨ part = "."
    · rw [if_pos h1]; exact ha
    · rw [if_neg h1]
      by_cases h2 : part = ".."
      · rw [if_pos h2]; exact ha
      · rw [if_neg h2]
        push_neg at h1
        exact Descends.step _ _ ha h1.1 h1.2 h2 hpart

theorem descends_append {root p : String} (h : Descends root p) :
    ∃ t, p = root ++ t := by
  induction h with
  | refl => exact ⟨"", by simp⟩
  | step p q _ hq1 _ _ hq4 ih =>
    rcases ih with ⟨t, ht⟩
    have hsw : startsWithSlash q = false := by
      unfold startsWithSlash
      cases q with
      | mk l =>
        cases l with
        | nil => exact absurd rfl hq1
        | cons c cl =>
          simp only
          simp only [String.data] at hq4
          have : c ≠ '/' := fun hc => hq4 (hc ▸ List.mem_cons_self c cl)
          simp [this]
    unfold ppjoin
    rw [hsw]
    simp only [Bool.false_eq_true, if_false]
    by_cases h2 : p = "" ∨ endsWithSlash p
    · rw [if_pos h2]
      exact ⟨t ++ q, by rw [ht, String.append_assoc]⟩
    · rw [if_neg h2]
      exact ⟨t ++ "/" ++ q, by simp [ht, String.append_assoc]⟩

theorem foldl_transStep_filter (parts : List String) :
    ∀ acc : String,
      parts.foldl transStep acc =
        (parts.filter (fun q => !(q == "" || q == "." || q == ".."))).foldl ppjoin acc := by
  induction parts with
  | nil => intro acc; rfl
  | cons part rest ih =>
    intro acc
    simp only [List.foldl_cons, List.filter_cons]
    by_cases h1 : part = "" ∨ part = "."
    · have hb : (part == "" || part == "." || part == "..") = true := by
        rcases h1 with h | h <;> simp [h]
      have : transStep acc part = acc := by
        unfold transStep; rw [if_pos h1]
      rw [this, hb]
      simp only [Bool.not_true, Bool.false_eq_true, if_false]
      exact ih acc
    · by_cases h2 : part = ".."
      · have hb : (part == "" || part == "." || part == "..") = true := by simp [h2]
        have : transStep acc part = acc := by
          unfold transStep; rw [if_neg h1, if_pos h2]
        rw [this, hb]
        simp only [Bool.not_true, Bool.false_eq_true, if_false]
        exact ih acc
      · push_neg at h1
        have hb : (part == "" || part == "." || part == "..") = false := by
          simp [h1.1, h1.2, h2]
        have : transStep acc part = ppjoin acc part := by
          unfold transStep
          rw [if_neg (by push_neg; exact h1), if_neg h2]
        rw [this, hb]
        simp only [Bool.not_false, if_true, List.foldl_cons]
        exact ih (ppjoin acc part)

/-- C1.  Path containment: for every configured (nonempty) root directory
and every request path — traversal sequences, percent-escapes and repeated
".." included — translate_path returns the root itself or a path reached
from the root by appending clean components only; equivalently the result
extends the root textually, and equals the root-anchored join of the
decoded, normalized components with empty, "." and ".." components
dropped. -/
theorem translate_path_containment (d directory path : String) (h : d ≠ "") :
    Descends d (DemoHandler_translate_path (some d) directory path) ∧
    (∃ t, DemoHandler_translate_path (some d) directory path = d ++ t) ∧
    DemoHandler_translate_path (some d) directory path =
      ((pySplitSlash (unquote (posix_normpath path))).filter
        (fun q => !(q == "" || q == "." || q == ".."))).foldl ppjoin d := by
  have he : DemoHandler_translate_path (some d) directory path =
      (pySplitSlash (unquote (posix_normpath path))).foldl transStep d := by
    simp [DemoHandler_translate_path, h, translate_path_serve]
  have hd : Descends d (DemoHandler_translate_path (some d) directory path) := by
    rw [he]
    exact descends_foldl d _ (pySplitSlash_no_slash _) d Descends.refl
  refine ⟨hd, descends_append hd, ?_⟩
  rw [he]
  exact foldl_transStep_filter _ d

theorem translate_path_containment_witness :
    Descends "/srv/data" (DemoHandler_translate_path (some "/srv/data") "/cwd" "/%2e%2e/../a/../../b/./c") :=
  (translate_path_containment "/srv/data" "/cwd" "/%2e%2e/../a/../../b/./c" (by decide)).1

/-! ## Port allocation lemmas -/

theorem portScan_ok_iff (free : Nat → Bool) (msg : String) :
    ∀ (n s p : Nat),
      portScan free msg (List.range' s n) = Except.ok p ↔
        s ≤ p ∧ p < s + n ∧ free p = true ∧ ∀ q, s ≤ q → q < p → free q = false := by
  intro n
  induction n with
  | zero =>
    intro s p
    simp only [List.range', portScan]
    constructor
    · intro h; cases h
    · intro ⟨h1, h2, _⟩; omega
  | succ n ih =>
    intro s p
    simp only [List.range', portScan]
    by_cases hfs : free s = true
    · rw [if_pos hfs]
      constructor
      · intro h
        have hps : p = s := by cases h; rfl
        subst hps
        exact ⟨Nat.le_refl p, by omega, hfs, fun q h1 h2 => absurd h1 (by omega)⟩
      · intro ⟨h1, h2, h3, h4⟩
        have hps : p = s := by
          by_contra hne
          have : s < p := lt_of_le_of_ne h1 (fun he => hne he.symm)
          have := h4 s (Nat.le_refl s) this
          rw [hfs] at this
          cases this
        subst hps
        rfl
    · rw [if_neg hfs]
      rw [ih (s + 1) p]
      have hfs' : free s = false := by
        cases h : free s
        · rfl
        · exact absurd h hfs
      constructor
      · intro ⟨h1, h2, h3, h4⟩
        refine ⟨by omega, by omega, h3, fun q hq1 hq2 => ?_⟩
        by_cases hqs : q = s
        · subst hqs; exact hfs'
        · exact h4 q (by omega) hq2
      · intro ⟨h1, h2, h3, h4⟩
        have hsp : s < p := by
          by_contra hle
          have : p = s := by omega
          subst this
          rw [hfs'] at h3
          cases h3
        exact ⟨by omega, by omega, h3, fun q hq1 hq2 => h4 q (by omega) hq2⟩

theorem portScan_error_iff (free : Nat → Bool) (msg : String) :
    ∀ (n s : Nat),
      portScan free msg (List.range' s n) = Except.error msg ↔
        ∀ q, s ≤ q → q < s + n → free q = false := by
  intro n
  induction n with
  | zero =>
    intro s
    simp only [List.range', portScan]
    constructor
    · intro _ q h1 h2; omega
    · intro _; trivial
  | succ n ih =>
    intro s
    simp only [List.range', portScan]
    by_cases hfs : free s = true
    · rw [if_pos hfs]
      constructor
      · intro h; cases h
      · intro h
        have := h s (Nat.le_refl s) (by omega)
        rw [hfs] at this
        cases this
    · rw [if_neg hfs]
      rw [ih (s + 1)]
      have hfs' : free s = false := by
        cases h : free s
        · rfl
        · exact absurd h hfs
      constructor
      · intro h q hq1 hq2
        by_cases hqs : q = s
        · subst hqs; exact hfs'
        · exact h q (by omega) (by omega)
      · intro h q hq1 hq2
        exact h q (by omega) (by omega)

/-- C4.  Port auto-allocation contract: the allocator scans
[range_start, range_end) in ascending order, returns exactly the lowest
free port of the range, fails with the no-free-port error exactly when no
port in the range is free, and its default range is start 8080, end 9000
exclusive. -/
theorem find_free_port_contract :
    (∀ free : Nat → Bool, find_free_port free = find_free_port free 8080 9000) ∧
    (∀ (free : Nat → Bool) (start stop p : Nat),
      find_free_port free start stop = Except.ok p ↔
        start ≤ p ∧ p < stop ∧ free p = true ∧ ∀ q, start ≤ q → q < p → free q = false) ∧
    (∀ (free : Nat → Bool) (start stop : Nat),
      find_free_port free start stop =
          Except.error ("No free port found in range " ++ toString start ++ "-" ++ toString stop) ↔
        ∀ p, start ≤ p → p < stop → free p = false) := by
  refine ⟨fun free => rfl, fun free start stop p => ?_, fun free start stop => ?_⟩
  · unfold find_free_port
    rw [portScan_ok_iff]
    constructor
    · intro ⟨h1, h2, h3, h4⟩; exact ⟨h1, by omega, h3, h4⟩
    · intro ⟨h1, h2, h3, h4⟩; exact ⟨h1, by omega, h3, h4⟩
  · unfold find_free_port
    rw [portScan_error_iff]
    constructor
    · intro h q h1 h2; exact h q h1 (by omega)
    · intro h q h1 h2; exact h q h1 (by omega)

/-- C10.  Only a strictly positive requested port is used directly; zero
and every negative value select auto-allocation over the default range
8080-9000. -/
theorem choosePort_nonpositive_auto (argPort : Int) (free : Nat → Bool) :
    (argPort ≤ 0 → choosePort argPort free = find_free_port free 8080 9000) ∧
    (0 < argPort → choosePort argPort free = Except.ok argPort.toNat) := by
  constructor
  · intro h
    unfold choosePort
    rw [if_neg (by omega)]
  · intro h
    unfold choosePort
    rw [if_pos (by omega)]

theorem choosePort_nonpositive_auto_witness :
    choosePort (-7) (fun p => p == 8081) = find_free_port (fun p => p == 8081) 8080 9000 :=
  (choosePort_nonpositive_auto (-7) (fun p => p == 8081)).1 (by decide)

/-! ## The HTTP surface -/

/-- C9.  Health check stability: for every handler configuration,
filesystem, time, hostname and pid, GET /health answers 200 with
Content-Type application/json and exactly the fixed JSON body. -/
theorem health_check_stability (h : DemoHandlerState) (directory : String) (fs : FSModel)
    (now : Nat) (hostname : String) (pid : Nat) :
    do_GET h directory fs now hostname pid "/health" =
      ⟨200, some "application/json", none, some "\x7b\"status\": \"ok\"\x7d"⟩ := rfl

/-- C2 counterexample.  With no serve_dir configured but a file x present
in the working directory, GET /x is answered 200 by the inherited
SimpleHTTPRequestHandler machinery — static serving is not disabled, so
the claimed universal 404 is false at this input. -/
theorem static_serving_active_without_serve_dir :
    (do_GET (DemoHandler_init none "Hello from Fileglancer!" 0) "/cwd" cwdFS 0 "h" 1 "/x").status = 200 ∧
    (do_GET (DemoHandler_init none "Hello from Fileglancer!" 0) "/cwd" cwdFS 0 "h" 1 "/x").status ≠ 404 := by
  refine ⟨?_, ?_⟩ <;> decide

/-- C2 amended.  With no serve_dir configured, non-fixed-endpoint requests
fall through to the inherited static file serving rooted at the handler
directory (the working directory); the response is 404 exactly when the
resolved path names neither a directory nor an existing file. -/
theorem no_serve_dir_falls_back_to_cwd (msg : String) (st : Nat) (directory : String)
    (fs : FSModel) (now : Nat) (hostname : String) (pid : Nat) (reqPath : String)
    (h1 : reqPath ≠ "/") (h2 : reqPath ≠ "") (h3 : reqPath ≠ "/health")
    (h4 : fs.isDir (super_translate_path directory reqPath) = false)
    (h5 : fs.isFile (super_translate_path directory reqPath) = false) :
    do_GET (DemoHandler_init none msg st) directory fs now hostname pid reqPath =
      send_head none directory fs reqPath ∧
    (do_GET (DemoHandler_init none msg st) directory fs now hostname pid reqPath).status = 404 := by
  have hd : do_GET (DemoHandler_init none msg st) directory fs now hostname pid reqPath =
      send_head none directory fs reqPath := by
    unfold do_GET
    rw [if_neg (not_or.mpr ⟨h1, h2⟩), if_neg h3]
    rfl
  refine ⟨hd, ?_⟩
  rw [hd]
  simp [send_head, DemoHandler_translate_path, h4, h5]

theorem no_serve_dir_falls_back_to_cwd_witness :
    do_GET (DemoHandler_init none "m" 0) "/cwd" emptyFS 0 "h" 1 "/nope" =
      send_head none "/cwd" emptyFS "/nope" ∧
    (do_GET (DemoHandler_init none "m" 0) "/cwd" emptyFS 0 "h" 1 "/nope").status = 404 :=
  no_serve_dir_falls_back_to_cwd "m" 0 "/cwd" emptyFS 0 "h" 1 "/nope"
    (by decide) (by decide) (by decide) rfl rfl

/-- The status page HTML rendered for the message containing one
two-byte UTF-8 character. -/
def cafeHtml : String := status_html "café" (strftimeYmdHMS 0) 0 0 0 "demo-host" 1234

set_option maxRecDepth 100000 in
/-- C5 evidence.  The status page response is 200 text/html, but its
Content-Length header is the character count len(html) of line 95, while
the body sent is html.encode(): for the message "café" the encoded body is
one byte longer than the header claims, so the header does not equal the
byte length of the body as sent. -/
theorem status_page_content_length_bug :
    (serve_status_page (DemoHandler_init none "café" 0) 0 "demo-host" 1234).status = 200 ∧
    (serve_status_page (DemoHandler_init none "café" 0) 0 "demo-host" 1234).contentType = some "text/html" ∧
    (serve_status_page (DemoHandler_init none "café" 0) 0 "demo-host" 1234).contentLength = some cafeHtml.length ∧
    (serve_status_page (DemoHandler_init none "café" 0) 0 "demo-host" 1234).body = some cafeHtml ∧
    byteLen cafeHtml = cafeHtml.length + 1 := by
  refine ⟨rfl, rfl, rfl, rfl, ?_⟩
  decide

/-- C6 evidence.  The start timestamp is not shared across requests: a
request served at time 100 on a process started at time 0 displays the
connection time 100 as its start time and an uptime of zero, not the
process start 0 with 1m40s of uptime, because HTTPServer constructs a
fresh DemoHandler (running datetime.now()) for every connection. -/
theorem start_time_per_connection_bug :
    serveConnections none "hi" 0 [100] = [⟨strftimeYmdHMS 100, 0, 0, 0⟩] ∧
    strftimeYmdHMS 100 ≠ strftimeYmdHMS 0 ∧
    serveConnections none "hi" 0 [100] ≠ [⟨strftimeYmdHMS 0, 0, 1, 40⟩] := by
  refine ⟨rfl, by decide, by decide⟩

/-! ## Lifecycle and discovery -/

/-- C3 counterexample.  Between server_close and os.remove there is an
observable instant at which the discovery file still exists while the
listener is already closed, so the claimed invariant is false for the
shutdown sequence run with a configured path and an existing file. -/
theorem discovery_file_outlives_listener :
    (shutStates ⟨true, true⟩ (shutdownEvents "/tmp/demo-service.url" true)).any fileWhileClosed = true := by
  decide

/-- C3 amended.  The listener is closed strictly before the discovery file
is removed, so when the file was present at shutdown start, at no
observable instant of the shutdown sequence is the discovery file absent
while the listener is still open: the absence of the file implies the
listener is closed. -/
theorem close_before_retract (path : String) (h : path ≠ "") :
    List.indexOf ShutEvent.closeListener (shutdownEvents path true) <
      List.indexOf ShutEvent.removeFile (shutdownEvents path true) ∧
    ShutEvent.removeFile ∈ shutdownEvents path true ∧
    (shutStates ⟨true, true⟩ (shutdownEvents path true)).all
      (fun s => s.fileExists || !s.listenerOpen) = true := by
  have he : shutdownEvents path true =
      [ShutEvent.closeListener, ShutEvent.removeFile,
       ShutEvent.logEvent ("Cleaned up " ++ path), ShutEvent.logEvent "Service stopped."] := by
    simp [shutdownEvents, h]
  rw [he]
  refine ⟨?_, ?_, rfl⟩
  · have h0 : List.indexOf ShutEvent.closeListener
        [ShutEvent.closeListener, ShutEvent.removeFile,
         ShutEvent.logEvent ("Cleaned up " ++ path), ShutEvent.logEvent "Service stopped."] = 0 := rfl
    have h1 : List.indexOf ShutEvent.removeFile
        [ShutEvent.closeListener, ShutEvent.removeFile,
         ShutEvent.logEvent ("Cleaned up " ++ path), ShutEvent.logEvent "Service stopped."] = 1 := rfl
    rw [h0, h1]
    omega
  · simp

theorem close_before_retract_witness :
    List.indexOf ShutEvent.closeListener (shutdownEvents "/tmp/demo-service.url" true) <
      List.indexOf ShutEvent.removeFile (shutdownEvents "/tmp/demo-service.url" true) ∧
    ShutEvent.removeFile ∈ shutdownEvents "/tmp/demo-service.url" true ∧
    (shutStates ⟨true, true⟩ (shutdownEvents "/tmp/demo-service.url" true)).all
      (fun s => s.fileExists || !s.listenerOpen) = true :=
  close_before_retract "/tmp/demo-service.url" (by decide)

/-- C7 counterexample.  A failure of the open or write inside
write_service_url is an uncaught OSError: startup aborts with the
exception instead of proceeding to install signal handlers and serve, so
publish does not "never abort". -/
theorem discovery_write_failure_aborts_startup :
    discoveryPhase badFS (some "/tmp/demo-service.url") "http://host:8080" =
      Except.error "OSError" := rfl

/-- C7 amended.  A failed post-write verification is degraded and
non-fatal: when the write itself succeeds, startup always proceeds to
install the signal handlers and serve, the URL is written at the
configured path, and a failed verification only adds the ERROR diagnostic
to the log. -/
theorem verification_failure_nonfatal (fs : DiscoveryFS) (path url : String)
    (h1 : fs.openWriteOk = true) (h2 : path ≠ "") (h3 : fs.existsAfterWrite = false) :
    isOkB (discoveryPhase fs (some path) url) = true ∧
    ∀ o : MainOutcome, discoveryPhase fs (some path) url = Except.ok o →
      o.handlersInstalled = true ∧ o.serving = true ∧ o.wrote = some (path, url) ∧
      ("ERROR: " ++ path ++ " does not exist after write!") ∈ o.logs := by
  have he : discoveryPhase fs (some path) url =
      Except.ok ⟨some (path, url),
        ("SERVICE_URL_PATH: " ++ path) :: ("Writing service URL to: " ++ path) ::
          ["ERROR: " ++ path ++ " does not exist after write!"], true, true⟩ := by
    simp [discoveryPhase, write_service_url, h1, h2, h3]
  rw [he]
  refine ⟨rfl, ?_⟩
  intro o ho
  injection ho with hv
  subst hv
  exact ⟨rfl, rfl, rfl, by simp⟩

theorem verification_failure_nonfatal_witness :
    isOkB (discoveryPhase failVerifyFS (some "/tmp/demo-service.url") "http://host:8080") = true :=
  (verification_failure_nonfatal failVerifyFS "/tmp/demo-service.url" "http://host:8080"
    rfl (by decide) rfl).1

/-- C8 counterexample.  With SERVICE_URL_PATH unset and a fully working
filesystem, the outcome records no written file at all — instead of the
claimed write to a default filename under the working directory, the
service only logs a warning. -/
theorem no_env_no_default_discovery_file :
    discoveryPhase goodFS none "http://host:8080" =
      Except.ok ⟨none, ["WARNING: SERVICE_URL_PATH not set, service URL will not be written"],
        true, true⟩ := rfl

/-- C8 amended.  When no discovery-file path is supplied externally, the
service writes no discovery file anywhere: it logs a warning, still
installs the signal handlers and serves. -/
theorem no_env_skips_publication (fs : DiscoveryFS) (url : String) :
    discoveryPhase fs none url =
      Except.ok ⟨none, ["WARNING: SERVICE_URL_PATH not set, service URL will not be written"],
        true, true⟩ := rfl

end DemoService
